import Mathlib

/-!
Shallow embedding of the Route Sequencing & Metrics Engine of the
Erhards-Route-Planner repository (src/types.ts, src/utils/optimizer.ts and the
App component), together with theorems checking the natural-language
specification against it.  JavaScript numbers are modelled as real numbers
(`ℝ`); the NaN-propagating integer arithmetic of the duration computation is
modelled by `Option ℤ` with `none` playing the role of `NaN`/`undefined`.
-/

/-- Embeds `interface Coordinate` of src/types.ts: a pair of numbers. -/
structure Coordinate where
  lat : ℝ
  lng : ℝ

/-- Embeds the priority union type `'low' | 'medium' | 'high'` of src/types.ts. -/
inductive Priority where
  | low
  | medium
  | high
deriving DecidableEq

/-- Embeds `type TrafficCondition = 'light' | 'moderate' | 'heavy'` of src/types.ts. -/
inductive TrafficCondition where
  | light
  | moderate
  | heavy
deriving DecidableEq

/-- Embeds `interface DeliveryStop` of src/types.ts.  The two optional
annotation fields are `Option`s, absent (`none`) until an estimation round
sets them. -/
structure DeliveryStop where
  id : String
  address : String
  customerName : String
  priority : Priority
  coords : Coordinate
  estimatedTime : Option String := none
  trafficCondition : Option TrafficCondition := none

noncomputable instance : Inhabited DeliveryStop :=
  ⟨⟨"", "", "", Priority.low, ⟨0, 0⟩, none, none⟩⟩

/-- Embeds `calculateDistance` of src/utils/optimizer.ts: plain Euclidean
distance `sqrt (dx*dx + dy*dy)` over the raw coordinate differences. -/
noncomputable def calculateDistance (p1 p2 : Coordinate) : ℝ :=
  Real.sqrt ((p1.lng - p2.lng) * (p1.lng - p2.lng) + (p1.lat - p2.lat) * (p1.lat - p2.lat))

/-- Embeds the priority weighting expression of src/utils/optimizer.ts line 25:
`priority === 'high' ? 0.7 : priority === 'medium' ? 0.9 : 1.0`. -/
noncomputable def priorityWeight : Priority → ℝ
  | Priority.high => 0.7
  | Priority.medium => 0.9
  | Priority.low => 1.0

/-- Embeds the inner `for` loop of `optimizeRoute` (src/utils/optimizer.ts
lines 22-32): it scans the elements of `rest` (the pool from index `i`
onwards), keeping the index `bestIdx` and value `bestVal` of the best
candidate seen so far and replacing them only on a strictly smaller weighted
distance. -/
noncomputable def scanLoop (pos : Coordinate) :
    List DeliveryStop → Nat → Nat → ℝ → Nat × ℝ
  | [], _, bestIdx, bestVal => (bestIdx, bestVal)
  | s :: rest, i, bestIdx, bestVal =>
    if calculateDistance pos s.coords * priorityWeight s.priority < bestVal then
      scanLoop pos rest (i + 1) i (calculateDistance pos s.coords * priorityWeight s.priority)
    else
      scanLoop pos rest (i + 1) bestIdx bestVal

/-- Embeds the computation of `nearestIndex` for one iteration of the `while`
loop of `optimizeRoute` (src/utils/optimizer.ts lines 19-32): `nearestIndex`
starts at `0`, `minDistance` starts as the UNWEIGHTED distance to the pool's
first element (line 20), and the loop from index `1` compares weighted
distances against it. -/
noncomputable def nearestIndex (pos : Coordinate) : List DeliveryStop → Nat
  | [] => 0
  | s :: rest => (scanLoop pos rest 1 0 (calculateDistance pos s.coords)).1

theorem scanLoop_fst_lt (pos : Coordinate) :
    ∀ (rest : List DeliveryStop) (i bestIdx : Nat) (bestVal : ℝ) (n : Nat),
      bestIdx < n → i + rest.length ≤ n → (scanLoop pos rest i bestIdx bestVal).1 < n := by
  intro rest
  induction rest with
  | nil => intro i bestIdx bestVal n hb _; simpa [scanLoop] using hb
  | cons s rest ih =>
    intro i bestIdx bestVal n hb hlen
    simp only [scanLoop]
    split
    · exact ih (i + 1) i _ n (by simp at hlen; omega) (by simp at hlen ⊢; omega)
    · exact ih (i + 1) bestIdx _ n hb (by simp at hlen ⊢; omega)

theorem nearestIndex_lt (pos : Coordinate) (s : DeliveryStop) (rest : List DeliveryStop) :
    nearestIndex pos (s :: rest) < (s :: rest).length := by
  simp only [nearestIndex, List.length_cons]
  exact scanLoop_fst_lt pos rest 1 0 _ (rest.length + 1) (by omega) (by omega)

/-- Embeds the `while` loop of `optimizeRoute` (src/utils/optimizer.ts lines
18-37): pick the stop at `nearestIndex`, splice it out of the pool, append it
to the route and move the current position to its coordinates. -/
noncomputable def optimizeLoop (pos : Coordinate) (pool : List DeliveryStop) :
    List DeliveryStop :=
  match pool with
  | [] => []
  | s :: rest =>
    ((s :: rest).getD (nearestIndex pos (s :: rest)) default) ::
      optimizeLoop ((s :: rest).getD (nearestIndex pos (s :: rest)) default).coords
        ((s :: rest).eraseIdx (nearestIndex pos (s :: rest)))
  termination_by pool.length
  decreasing_by
    have h1 := nearestIndex_lt pos s rest
    have h2 := List.length_eraseIdx_add_one (l := s :: rest)
      (i := nearestIndex pos (s :: rest)) h1
    omega

/-- Embeds `optimizeRoute` of src/utils/optimizer.ts (lines 11-40): empty
input returns `[]`, otherwise the greedy selection loop runs on a copy of the
input until the pool is exhausted. -/
noncomputable def optimizeRoute (start : Coordinate) (stops : List DeliveryStop) :
    List DeliveryStop :=
  if stops.length = 0 then [] else optimizeLoop start stops

/-- The candidate score the selection loop of `optimizeRoute` actually uses
for the pool element at index `i`: the plain distance for index `0` (the
initial value of `minDistance`, src/utils/optimizer.ts line 20) and the
priority-weighted distance for every later index (line 26). -/
noncomputable def candidateScore (pos : Coordinate) (pool : List DeliveryStop) (i : Nat) : ℝ :=
  if i = 0 then calculateDistance pos (pool.getD i default).coords
  else calculateDistance pos (pool.getD i default).coords *
    priorityWeight (pool.getD i default).priority

/-! Reference-level model of JavaScript array variables for the mutation
claim: a heap maps references (allocation indices) to array contents, and
`[...stops]` allocates a fresh reference holding a copy. -/

/-- Heap of JavaScript arrays of stops: `size` is the number of allocations
made so far, `data r` the contents of reference `r`. -/
structure Mem where
  size : Nat
  data : Nat → List DeliveryStop

/-- Reading an array variable. -/
def Mem.read (m : Mem) (r : Nat) : List DeliveryStop := m.data r

/-- In-place mutation (as by `splice`) of the array behind reference `r`. -/
def Mem.write (m : Mem) (r : Nat) (v : List DeliveryStop) : Mem :=
  ⟨m.size, Function.update m.data r v⟩

/-- Allocation of a fresh array (as by the spread `[...stops]`). -/
def Mem.alloc (m : Mem) (v : List DeliveryStop) : Mem × Nat :=
  (⟨m.size + 1, Function.update m.data m.size v⟩, m.size)

theorem Mem.read_write (m : Mem) (r : Nat) (v : List DeliveryStop) :
    (m.write r v).read r = v := by
  simp [Mem.read, Mem.write]

theorem Mem.read_write_ne (m : Mem) (r r' : Nat) (v : List DeliveryStop) (h : r' ≠ r) :
    (m.write r v).read r' = m.read r' := by
  simp [Mem.read, Mem.write, Function.update_noteq h]

/-- The `while` loop of `optimizeRoute` at the reference level: each iteration
reads the `unvisited` array, splices the selected stop out of it in place
(a heap write through `unvRef`), and appends it to the local `route`. -/
noncomputable def optLoopRef (pos : Coordinate) (m : Mem) (unvRef : Nat)
    (route : List DeliveryStop) : Mem × List DeliveryStop :=
  match h : m.read unvRef with
  | [] => (m, route)
  | s :: rest =>
    optLoopRef ((s :: rest).getD (nearestIndex pos (s :: rest)) default).coords
      (m.write unvRef ((s :: rest).eraseIdx (nearestIndex pos (s :: rest)))) unvRef
      (route ++ [(s :: rest).getD (nearestIndex pos (s :: rest)) default])
  termination_by (m.read unvRef).length
  decreasing_by
    have h1 := nearestIndex_lt pos s rest
    have h2 := List.length_eraseIdx_add_one (l := s :: rest)
      (i := nearestIndex pos (s :: rest)) h1
    rw [Mem.read_write, h]
    simp at h2 ⊢
    omega

/-- Reference-level embedding of `optimizeRoute` (src/utils/optimizer.ts lines
11-40): the caller's array is behind `stopsRef`; `const unvisited = [...stops]`
allocates a fresh array with the same contents, and the loop mutates only that
fresh array. -/
noncomputable def optimizeRouteRef (start : Coordinate) (m : Mem) (stopsRef : Nat) :
    Mem × List DeliveryStop :=
  if (m.read stopsRef).length = 0 then (m, [])
  else
    optLoopRef start (m.alloc (m.read stopsRef)).1 (m.alloc (m.read stopsRef)).2 []

/-! Metrics calculator (`routeStats` in the App component, src/unnamed/part_000
lines 132-162). -/

/-- A JavaScript number restricted to the values the duration computation can
produce: `some n` is the integer `n`, `none` stands for `NaN` (and for
`undefined`, which behaves identically here: arithmetic on it yields `NaN`
and comparisons with it are false). -/
abbrev JSNum := Option Int

/-- Splitting a character list at every occurrence of a separator, as
`String.prototype.split` with a one-character separator does: the result is
the list of chunks between separators, with empty chunks kept, and the empty
input yields one empty chunk. -/
def splitOnChar (sep : Char) : List Char → List (List Char)
  | [] => [[]]
  | c :: rest =>
    let r := splitOnChar sep rest
    if c = sep then [] :: r else (c :: r.headD []) :: r.tail

/-- Models from the source the JavaScript `Number(...)` conversion on the
strings this code feeds it (the pieces of a clock string): a string of
decimal digits converts to its value, the empty string to `0`, anything else
to `NaN`. -/
def jsNumber (cs : List Char) : JSNum :=
  if cs = [] then some 0
  else if cs.all Char.isDigit then
    some (cs.foldl (fun n c => 10 * n + ((c.toNat : Int) - 48)) 0)
  else none

/-- Embeds `parseTime` of src/unnamed/part_000 lines 143-149:
split on a space into time and AM/PM modifier, split the time on a colon,
convert with `Number`, apply the 12-hour adjustments, and return
`hours * 60 + minutes`.  A missing part destructures to `undefined`, and all
`NaN`/`undefined` propagation of the JavaScript original is preserved by
`Option`: comparisons with `none` are false and arithmetic on `none` is
`none`. -/
def parseTime (timeStr : String) : JSNum :=
  let parts := splitOnChar ' ' timeStr.toList
  let time := parts.headD []
  let modifier : Option (List Char) := parts.get? 1
  let nums := (splitOnChar ':' time).map jsNumber
  let hours0 : JSNum := (nums.get? 0).getD none
  let minutes : JSNum := (nums.get? 1).getD none
  let hours1 : JSNum :=
    if modifier == some "PM".toList && (match hours0 with
      | some h => decide (h < 12)
      | none => false) then hours0.map (fun h => h + 12)
    else hours0
  let hours2 : JSNum :=
    if modifier == some "AM".toList && (match hours1 with
      | some h => decide (h = 12)
      | none => false) then some 0
    else hours1
  match hours2, minutes with
  | some h, some m => some (h * 60 + m)
  | _, _ => none

/-- String form of a `JSNum` as interpolated by a template literal:
`NaN` prints as `"NaN"`. -/
def jsRepr : JSNum → String
  | some n => toString n
  | none => "NaN"

/-- Result shape of `routeStats`: `{ distance, duration }`. -/
structure RouteStatsResult where
  distance : ℝ
  duration : String

/-- Embeds `routeStats` of src/unnamed/part_000 lines 132-162.  The state
read by the original memo (`stops`, `depotLocation`) is passed explicitly;
`startTimeStr` stands for the start-time string the source selects
(`getCurrentTimeFormatted()` when `useSystemTime && lastUpdated`, otherwise
`DEFAULT_DEPOT_START_TIME = "09:00 AM"`; the system-clock branch reads real
time and is not modelled further).  `Math.floor(diff / 60)` on an integer
`diff` is `Int.fdiv diff 60` and the JavaScript remainder `diff % 60` is
`Int.tmod diff 60`.  The `try`/`catch` of the source is embedded as the `try`
body alone: no step of it throws in JavaScript (`Number` of a malformed
string yields `NaN`, which the arithmetic then propagates), so the `catch`
branch returning `"..."` is unreachable.  The guard
`if (lastStop.estimatedTime)` is falsy both for an absent field and for the
empty string. -/
noncomputable def routeStats (depotLocation : Coordinate) (stops : List DeliveryStop)
    (startTimeStr : String) : RouteStatsResult :=
  if stops.length = 0 then ⟨0, "0h 0m"⟩
  else
    let totalDist := (stops.foldl
      (fun (acc : ℝ × Coordinate) stop =>
        (acc.1 + calculateDistance acc.2 stop.coords * 111, stop.coords))
      (0, depotLocation)).1
    let lastStop := stops.getLastD default
    match lastStop.estimatedTime with
    | some et =>
      if et = "" then ⟨totalDist, "..."⟩
      else
        let startMinutes := parseTime startTimeStr
        let endMinutes := parseTime et
        let diff : JSNum := match endMinutes, startMinutes with
          | some e, some s => some (e - s)
          | _, _ => none
        ⟨totalDist,
          jsRepr (diff.map (fun d => Int.fdiv d 60)) ++ "h " ++
            jsRepr (diff.map (fun d => Int.tmod d 60)) ++ "m"⟩
    | none => ⟨totalDist, "..."⟩

/-! Orchestrator (`runOptimization` in the App component, src/unnamed/part_000
lines 164-186). -/

/-- One per-stop annotation of the estimator result (`result.etas` elements). -/
structure EtaInfo where
  id : String
  eta : String
  traffic : TrafficCondition

/-- Shape of a successful `analyzeRoute` result: a summary and per-stop etas. -/
structure AnalyzeResult where
  summary : String
  etas : List EtaInfo

/-- Embeds the annotation merge of src/unnamed/part_000 lines 174-177:
`orderedStops.map(stop => { const insight = result.etas.find(e => e.id ===
stop.id); return { ...stop, estimatedTime: insight?.eta, trafficCondition:
insight?.traffic }; })`.  When no insight is found, the optional chaining
produces `undefined`, so both fields are overwritten with `undefined`
(`none`), not left alone. -/
def mergeInsights (etas : List EtaInfo) (orderedStops : List DeliveryStop) :
    List DeliveryStop :=
  orderedStops.map fun stop =>
    { stop with
      estimatedTime := (etas.find? (fun e => e.id == stop.id)).map EtaInfo.eta
      trafficCondition := (etas.find? (fun e => e.id == stop.id)).map EtaInfo.traffic }

/-- The engine-visible component state `runOptimization` writes: the stop list
and the AI summary.  (UI-only state touched by the source — `isOptimizing`,
`selectedStopId`, `lastUpdated` — is presentation plumbing outside the
engine's data model.) -/
structure EngineState where
  stops : List DeliveryStop
  aiSummary : Option String

/-- Embeds the synchronous head of `runOptimization` (src/unnamed/part_000
lines 164-170): choose the target stops (`manualStops || stops` — a manual
empty list is truthy and is used as-is), return early when they are empty,
and compute `orderedStops` (the manual order as given, otherwise
`optimizeRoute`). -/
noncomputable def sequencePhase (st : EngineState) (depot : Coordinate)
    (manualStops : Option (List DeliveryStop)) : Option (List DeliveryStop) :=
  let targetStops := manualStops.getD st.stops
  if targetStops.length = 0 then none
  else some (match manualStops with
    | some m => m
    | none => optimizeRoute depot targetStops)

/-- Embeds the continuation of `runOptimization` after `await analyzeRoute`
(src/unnamed/part_000 lines 172-185), applied to the state current when the
estimator call settles: on success, merge the insights into `orderedStops`
and set the summary; on failure (`catch`), set the stops to the bare
`orderedStops` and touch nothing else. -/
def completePhase (orderedStops : List DeliveryStop)
    (result : Except Unit AnalyzeResult) (st : EngineState) : EngineState :=
  match result with
  | Except.ok r => { stops := mergeInsights r.etas orderedStops, aiSummary := some r.summary }
  | Except.error _ => { st with stops := orderedStops }

/-- Embeds one complete `runOptimization` invocation (src/unnamed/part_000
lines 164-186) whose estimator call settles with `estimate` while the
component state is still `st`: the sequencing phase followed by the
completion phase. -/
noncomputable def runOptimization (st : EngineState) (depot : Coordinate)
    (manualStops : Option (List DeliveryStop)) (estimate : Except Unit AnalyzeResult) :
    EngineState :=
  match sequencePhase st depot manualStops with
  | none => st
  | some orderedStops => completePhase orderedStops estimate st

/-! Helper lemmas about the selection loop and the route permutation. -/

theorem getD_cons_eraseIdx_perm {α : Type} [Inhabited α] :
    ∀ (l : List α) (i : Nat), i < l.length → ((l.getD i default) :: l.eraseIdx i).Perm l := by
  intro l
  induction l with
  | nil => intro i h; simp at h
  | cons a t ih =>
    intro i h
    cases i with
    | zero => simp [List.eraseIdx]
    | succ n =>
      simp only [List.getD_cons_succ, List.eraseIdx_cons_succ]
      have h1 : n < t.length := by simpa using h
      exact ((List.Perm.swap a (t.getD n default) (t.eraseIdx n)).trans
        (((ih n h1)).cons a))

theorem optimizeLoop_perm :
    ∀ (n : Nat) (pool : List DeliveryStop), pool.length ≤ n →
      ∀ pos, (optimizeLoop pos pool).Perm pool := by
  intro n
  induction n with
  | zero =>
    intro pool h pos
    have hp : pool = [] := List.eq_nil_of_length_eq_zero (by omega)
    subst hp
    simp [optimizeLoop]
  | succ n ih =>
    intro pool h pos
    match pool with
    | [] => simp [optimizeLoop]
    | s :: rest =>
      rw [optimizeLoop]
      have hlt := nearestIndex_lt pos s rest
      have hperm := getD_cons_eraseIdx_perm (s :: rest) (nearestIndex pos (s :: rest)) hlt
      have hlen := List.length_eraseIdx_add_one (l := s :: rest)
        (i := nearestIndex pos (s :: rest)) hlt
      have ih2 := ih ((s :: rest).eraseIdx (nearestIndex pos (s :: rest)))
        (by simp only [List.length_cons] at h hlen ⊢; omega)
        ((s :: rest).getD (nearestIndex pos (s :: rest)) default).coords
      exact (ih2.cons _).trans hperm

/-- Invariant of the scan loop: given a score function `f` matching the
weighted distances of the not-yet-scanned elements, and a current best that is
the first minimum among the already-scanned prefix, the loop returns the first
minimum over everything. -/
theorem scanLoop_min_spec (pos : Coordinate) :
    ∀ (rest : List DeliveryStop) (i bestIdx : Nat) (bestVal : ℝ) (f : Nat → ℝ),
      (∀ k (hk : k < rest.length), f (i + k) =
        calculateDistance pos (rest.get ⟨k, hk⟩).coords *
          priorityWeight (rest.get ⟨k, hk⟩).priority) →
      bestVal = f bestIdx → bestIdx < i →
      (∀ k < i, bestVal ≤ f k) →
      (∀ k < bestIdx, bestVal < f k) →
      (scanLoop pos rest i bestIdx bestVal).2 = f (scanLoop pos rest i bestIdx bestVal).1 ∧
      (∀ k < i + rest.length, (scanLoop pos rest i bestIdx bestVal).2 ≤ f k) ∧
      (∀ k < (scanLoop pos rest i bestIdx bestVal).1,
        (scanLoop pos rest i bestIdx bestVal).2 < f k) := by
  intro rest
  induction rest with
  | nil =>
    intro i bestIdx bestVal f _ hbv _ hmin hstrict
    simp only [scanLoop]
    exact ⟨hbv, fun k hk => hmin k (by simpa using hk), hstrict⟩
  | cons s rest ih =>
    intro i bestIdx bestVal f hf hbv hbi hmin hstrict
    have hw : f i = calculateDistance pos s.coords * priorityWeight s.priority := by
      simpa using hf 0 (by simp)
    have hf' : ∀ k (hk : k < rest.length), f ((i + 1) + k) =
        calculateDistance pos (rest.get ⟨k, hk⟩).coords *
          priorityWeight (rest.get ⟨k, hk⟩).priority := by
      intro k hk
      have harith : (i + 1) + k = i + (k + 1) := by omega
      rw [harith]
      simpa using hf (k + 1) (by simpa using Nat.succ_lt_succ hk)
    simp only [scanLoop]
    split
    · rename_i hc
      have hres := ih (i + 1) i (calculateDistance pos s.coords * priorityWeight s.priority) f
        hf' hw.symm (by omega)
        (by
          intro k hk
          rcases Nat.lt_succ_iff_lt_or_eq.mp hk with hk' | hk'
          · exact le_of_lt (lt_of_lt_of_le hc (hmin k hk'))
          · subst hk'; exact le_of_eq hw.symm)
        (by intro k hk; exact lt_of_lt_of_le hc (hmin k hk))
      refine ⟨hres.1, ?_, hres.2.2⟩
      intro k hk
      exact hres.2.1 k (by simp only [List.length_cons] at hk; omega)
    · rename_i hc
      have hle : bestVal ≤ calculateDistance pos s.coords * priorityWeight s.priority :=
        le_of_not_lt hc
      have hres := ih (i + 1) bestIdx bestVal f hf' hbv (by omega)
        (by
          intro k hk
          rcases Nat.lt_succ_iff_lt_or_eq.mp hk with hk' | hk'
          · exact hmin k hk'
          · subst hk'; exact hw ▸ hle)
        hstrict
      refine ⟨hres.1, ?_, hres.2.2⟩
      intro k hk
      exact hres.2.1 k (by simp only [List.length_cons] at hk; omega)

/-- C1 (amended): in every iteration of the selection loop, the candidate
score of the FIRST pool element is its plain (unweighted) distance — the
initialization of `minDistance` at src/utils/optimizer.ts line 20 applies no
priority factor — while every later element is scored by
`distance * priority_factor` with high→0.7, medium→0.9, low→1.0; the element
with the minimum candidate score is selected, the first encountered winning
ties. -/
theorem C1_selection_first_element_unweighted (pos : Coordinate)
    (pool : List DeliveryStop) (h : pool ≠ []) :
    priorityWeight Priority.high = 0.7 ∧ priorityWeight Priority.medium = 0.9 ∧
    priorityWeight Priority.low = 1.0 ∧
    nearestIndex pos pool < pool.length ∧
    (∀ i < pool.length,
      candidateScore pos pool (nearestIndex pos pool) ≤ candidateScore pos pool i) ∧
    (∀ i < nearestIndex pos pool,
      candidateScore pos pool (nearestIndex pos pool) < candidateScore pos pool i) := by
  match pool, h with
  | s :: rest, _ =>
    refine ⟨rfl, rfl, rfl, nearestIndex_lt pos s rest, ?_⟩
    have hf : ∀ k (hk : k < rest.length),
        candidateScore pos (s :: rest) (1 + k) =
          calculateDistance pos (rest.get ⟨k, hk⟩).coords *
            priorityWeight (rest.get ⟨k, hk⟩).priority := by
      intro k hk
      have harith : 1 + k = k + 1 := by omega
      rw [harith]
      simp only [candidateScore, List.getD_cons_succ]
      rw [if_neg (by omega)]
      rw [List.getD_eq_getElem _ _ hk]
      simp
    have h0 : candidateScore pos (s :: rest) 0 = calculateDistance pos s.coords := by
      simp [candidateScore]
    have hspec := scanLoop_min_spec pos rest 1 0 (calculateDistance pos s.coords)
      (candidateScore pos (s :: rest)) hf h0.symm (by omega)
      (by intro k hk; interval_cases k; exact le_of_eq h0.symm)
      (by intro k hk; omega)
    have hni : nearestIndex pos (s :: rest) =
        (scanLoop pos rest 1 0 (calculateDistance pos s.coords)).1 := rfl
    constructor
    · intro i hi
      rw [hni, ← hspec.1]
      exact hspec.2.1 i (by simp only [List.length_cons] at hi; omega)
    · intro i hi
      rw [hni, ← hspec.1]
      exact hspec.2.2 i (by rwa [hni] at hi)

/-- Witness for C1: the amended selection characterization applied to a
concrete one-element pool. -/
theorem C1_selection_first_element_unweighted_witness :
    ([(default : DeliveryStop)] ≠ []) ∧
    (priorityWeight Priority.high = 0.7 ∧ priorityWeight Priority.medium = 0.9 ∧
     priorityWeight Priority.low = 1.0 ∧
     nearestIndex ⟨0, 0⟩ [(default : DeliveryStop)] < [(default : DeliveryStop)].length ∧
     (∀ i < [(default : DeliveryStop)].length,
       candidateScore ⟨0, 0⟩ [(default : DeliveryStop)]
           (nearestIndex ⟨0, 0⟩ [(default : DeliveryStop)]) ≤
         candidateScore ⟨0, 0⟩ [(default : DeliveryStop)] i) ∧
     (∀ i < nearestIndex ⟨0, 0⟩ [(default : DeliveryStop)],
       candidateScore ⟨0, 0⟩ [(default : DeliveryStop)]
           (nearestIndex ⟨0, 0⟩ [(default : DeliveryStop)]) <
         candidateScore ⟨0, 0⟩ [(default : DeliveryStop)] i)) :=
  ⟨by simp, C1_selection_first_element_unweighted ⟨0, 0⟩ [default] (by simp)⟩

/-- C2: the output of `optimizeRoute` is a permutation of the input (same
length, same multiset of stops, nothing duplicated or dropped), and the empty
input yields the empty route. -/
theorem C2_output_permutation (start : Coordinate) (stops : List DeliveryStop) :
    (optimizeRoute start stops).Perm stops ∧ optimizeRoute start [] = [] := by
  constructor
  · unfold optimizeRoute
    split
    · rename_i hz
      have hp : stops = [] := List.eq_nil_of_length_eq_zero hz
      subst hp
      simp
    · exact optimizeLoop_perm stops.length stops le_rfl start
  · simp [optimizeRoute]

/-! Concrete inputs used by counterexamples and witnesses. -/

/-- A stop carrying annotations from a previous estimation round. -/
noncomputable def stopAnnotated : DeliveryStop :=
  ⟨"s1", "addr 1", "Carol", Priority.medium, ⟨1, 0⟩, some "10:00 AM",
    some TrafficCondition.heavy⟩

/-- A stop whose estimated-time string is not a clock time at all. -/
noncomputable def stopBanana : DeliveryStop :=
  ⟨"s2", "addr 2", "Dave", Priority.low, ⟨0, 0⟩, some "banana", none⟩

theorem optimizeRoute_singleton (start : Coordinate) (s : DeliveryStop) :
    optimizeRoute start [s] = [s] := by
  rw [optimizeRoute, if_neg (by simp), optimizeLoop]
  simp [nearestIndex, scanLoop, optimizeLoop]

/-- C6: the annotation merge preserves the length, order and every
non-annotation field (identity, address, customer name, priority,
coordinates) of the sequence; it only touches the two optional annotation
fields. -/
theorem C6_merge_preserves_order_and_identity (etas : List EtaInfo)
    (stops : List DeliveryStop) :
    (mergeInsights etas stops).length = stops.length ∧
    (mergeInsights etas stops).map DeliveryStop.id = stops.map DeliveryStop.id ∧
    (mergeInsights etas stops).map DeliveryStop.address = stops.map DeliveryStop.address ∧
    (mergeInsights etas stops).map DeliveryStop.customerName =
      stops.map DeliveryStop.customerName ∧
    (mergeInsights etas stops).map DeliveryStop.priority = stops.map DeliveryStop.priority ∧
    (mergeInsights etas stops).map DeliveryStop.coords = stops.map DeliveryStop.coords := by
  refine ⟨by simp [mergeInsights], ?_, ?_, ?_, ?_, ?_⟩ <;>
    simp [mergeInsights, List.map_map, Function.comp]

/-- C5 (amended): the merge sets the two annotation fields of every stop from
the lookup result alone — to the annotation's values when the stop's identity
is found, and to ABSENT when it is not found (clearing, not preserving, any
previously set values). -/
theorem C5_merge_overwrites_from_lookup (etas : List EtaInfo) (stops : List DeliveryStop)
    (i : Nat) (h : i < stops.length) :
    ∃ hm : i < (mergeInsights etas stops).length,
      ((mergeInsights etas stops).get ⟨i, hm⟩).estimatedTime =
          (etas.find? (fun e => e.id == (stops.get ⟨i, h⟩).id)).map EtaInfo.eta ∧
        ((mergeInsights etas stops).get ⟨i, hm⟩).trafficCondition =
          (etas.find? (fun e => e.id == (stops.get ⟨i, h⟩).id)).map EtaInfo.traffic := by
  have hm : i < (mergeInsights etas stops).length := by simpa [mergeInsights] using h
  exact ⟨hm, by simp [mergeInsights, List.get_eq_getElem, List.getElem_map],
    by simp [mergeInsights, List.get_eq_getElem, List.getElem_map]⟩

/-- Counterexample to C5 as stated: a stop whose identity occurs in no
annotation does NOT keep its previously set estimated-time and
traffic-condition values — the merge clears both to absent. -/
theorem C5_counterexample :
    stopAnnotated.estimatedTime = some "10:00 AM" ∧
    stopAnnotated.trafficCondition = some TrafficCondition.heavy ∧
    (mergeInsights [] [stopAnnotated]).map DeliveryStop.estimatedTime = [none] ∧
    (mergeInsights [] [stopAnnotated]).map DeliveryStop.trafficCondition = [none] := by
  refine ⟨rfl, rfl, ?_, ?_⟩ <;> simp [mergeInsights, stopAnnotated]

/-- Witness for C5 (amended): merging a matching annotation into a one-stop
sequence sets both fields to the annotation's values. -/
theorem C5_merge_overwrites_from_lookup_witness :
    (0 < [stopAnnotated].length) ∧
    ∃ hm : 0 < (mergeInsights [⟨"s1", "11:00 AM", TrafficCondition.light⟩]
        [stopAnnotated]).length,
      ((mergeInsights [⟨"s1", "11:00 AM", TrafficCondition.light⟩]
          [stopAnnotated]).get ⟨0, hm⟩).estimatedTime = some "11:00 AM" ∧
      ((mergeInsights [⟨"s1", "11:00 AM", TrafficCondition.light⟩]
          [stopAnnotated]).get ⟨0, hm⟩).trafficCondition = some TrafficCondition.light := by
  refine ⟨by simp, ?_⟩
  obtain ⟨hm, h1, h2⟩ := C5_merge_overwrites_from_lookup
    [⟨"s1", "11:00 AM", TrafficCondition.light⟩] [stopAnnotated] 0 (by simp)
  refine ⟨hm, ?_, ?_⟩
  · rw [h1]; simp [stopAnnotated]
  · rw [h2]; simp [stopAnnotated]

/-- C3 (amended): when the estimator call fails, `runOptimization` sets the
stop list to the freshly sequenced order — whose stops keep whatever
annotation fields they already carried — and leaves the previous summary in
place (it does NOT clear it). -/
theorem C3_failure_keeps_summary (st : EngineState) (depot : Coordinate)
    (h : st.stops ≠ []) :
    runOptimization st depot none (Except.error ()) =
      { stops := optimizeRoute depot st.stops, aiSummary := st.aiSummary } := by
  have hlen : ¬ st.stops.length = 0 := by simpa [List.length_eq_zero] using h
  simp [runOptimization, sequencePhase, completePhase, hlen]

/-- Counterexample to C3 as stated: after an estimator failure the prior
summary is still observable and the surviving stop still carries its
previously attached estimated time — nothing is cleared. -/
theorem C3_counterexample :
    (runOptimization ⟨[stopAnnotated], some "prior summary"⟩ ⟨0, 0⟩ none
        (Except.error ())).aiSummary = some "prior summary" ∧
    ((runOptimization ⟨[stopAnnotated], some "prior summary"⟩ ⟨0, 0⟩ none
        (Except.error ())).stops).map DeliveryStop.estimatedTime = [some "10:00 AM"] := by
  constructor <;>
    simp [runOptimization, sequencePhase, completePhase, optimizeRoute_singleton,
      stopAnnotated]

/-- Witness for C3 (amended): the failure path applied to a concrete state
with one stop and a prior summary. -/
theorem C3_failure_keeps_summary_witness :
    ((⟨[stopAnnotated], some "prior summary"⟩ : EngineState).stops ≠ []) ∧
    runOptimization ⟨[stopAnnotated], some "prior summary"⟩ ⟨0, 0⟩ none
        (Except.error ()) =
      { stops := optimizeRoute ⟨0, 0⟩ [stopAnnotated],
        aiSummary := (⟨[stopAnnotated], some "prior summary"⟩ : EngineState).aiSummary } :=
  ⟨by simp, C3_failure_keeps_summary ⟨[stopAnnotated], some "prior summary"⟩ ⟨0, 0⟩
    (by simp)⟩

/-- C4 (amended): there is no generation token: a completion is applied to
whatever state is current when it resolves, and a successful completion
determines the entire visible state from its own invocation's data alone —
so a stale invocation that resolves after a newer one overwrites the newer
state (last completion wins, not last invocation). -/
theorem C4_last_completion_wins (orderedStops : List DeliveryStop) (r : AnalyzeResult)
    (st1 st2 : EngineState) :
    completePhase orderedStops (Except.ok r) st1 =
      completePhase orderedStops (Except.ok r) st2 ∧
    (completePhase orderedStops (Except.ok r) st1).aiSummary = some r.summary := by
  constructor <;> simp [completePhase]

/-- Counterexample to C4 as stated: invocation A (summary "summary A") is
issued before B (summary "summary B"); B's completion is applied first and
A's stale completion after it, and the final visible state is A's, not B's
as the claim requires. -/
theorem C4_counterexample :
    (completePhase [stopAnnotated] (Except.ok ⟨"summary A", []⟩)
        (completePhase [] (Except.ok ⟨"summary B", []⟩) ⟨[], none⟩)).aiSummary =
      some "summary A" ∧
    (completePhase [stopAnnotated] (Except.ok ⟨"summary A", []⟩)
        (completePhase [] (Except.ok ⟨"summary B", []⟩) ⟨[], none⟩)).aiSummary ≠
      some "summary B" := by
  constructor <;> simp [completePhase]

/-- C7 (amended): `routeStats` on an empty sequence returns zero distance and
the numeric zero duration string `"0h 0m"`, not the `"..."` unavailable
placeholder. -/
theorem C7_empty_zero_numeric_duration (depot : Coordinate) (startTimeStr : String) :
    routeStats depot [] startTimeStr = ⟨0, "0h 0m"⟩ ∧ ("0h 0m" : String) ≠ "..." := by
  constructor
  · simp [routeStats]
  · decide

/-- Counterexample to C7 as stated: on the empty sequence the duration is the
numeric string `"0h 0m"`, not an unavailable value. -/
theorem C7_counterexample :
    (routeStats ⟨0, 0⟩ [] "09:00 AM").duration = "0h 0m" ∧
    (routeStats ⟨0, 0⟩ [] "09:00 AM").duration ≠ "..." := by
  have h : (routeStats ⟨0, 0⟩ [] "09:00 AM").duration = "0h 0m" := by simp [routeStats]
  exact ⟨h, by rw [h]; decide⟩

/-- C8: evaluation of `routeStats` at a stop list whose last stop has the
unparseable estimated time "banana": the duration is the garbage string
"NaNh NaNm", not the "..." unavailable value the claim (and the code's own
unreachable catch branch) call for. -/
theorem C8_nan_duration_on_parse_failure :
    (routeStats ⟨0, 0⟩ [stopBanana] "09:00 AM").duration = "NaNh NaNm" ∧
    (routeStats ⟨0, 0⟩ [stopBanana] "09:00 AM").duration ≠ "..." := by
  have hpt : parseTime "banana" = none := by decide
  have h : (routeStats ⟨0, 0⟩ [stopBanana] "09:00 AM").duration = "NaNh NaNm" := by
    simp [routeStats, stopBanana, hpt, jsRepr]
  exact ⟨h, by rw [h]; decide⟩

theorem optLoopRef_read_ne (r : Nat) :
    ∀ (n : Nat) (pos : Coordinate) (m : Mem) (unvRef : Nat) (route : List DeliveryStop),
      (m.read unvRef).length = n → r ≠ unvRef →
      ((optLoopRef pos m unvRef route).1).read r = m.read r := by
  intro n
  induction n using Nat.strong_induction_on with
  | _ n ih =>
    intro pos m unvRef route hn hne
    rw [optLoopRef]
    split
    · rfl
    · rename_i s rest heq
      have hlt := nearestIndex_lt pos s rest
      have hlen := List.length_eraseIdx_add_one (l := s :: rest)
        (i := nearestIndex pos (s :: rest)) hlt
      have hread : ((m.write unvRef
          ((s :: rest).eraseIdx (nearestIndex pos (s :: rest)))).read unvRef).length
          = n - 1 := by
        rw [Mem.read_write]
        rw [heq] at hn
        simp only [List.length_cons] at hn hlen ⊢
        omega
      have hn' : n - 1 < n := by
        rw [heq] at hn
        simp only [List.length_cons] at hn
        omega
      rw [ih (n - 1) hn' _ _ _ _ hread hne]
      exact Mem.read_write_ne m unvRef r _ hne

/-- C10: `optimizeRoute` never mutates the caller's array.  At the reference
level, the function copies the input (`const unvisited = [...stops]`, a fresh
allocation) and all in-place splices go through the fresh reference, so after
the call the array behind the caller's reference is unchanged, element for
element and in order. -/
theorem C10_input_array_unchanged (start : Coordinate) (m : Mem) (stopsRef : Nat)
    (h : stopsRef < m.size) :
    ((optimizeRouteRef start m stopsRef).1).read stopsRef = m.read stopsRef := by
  rw [optimizeRouteRef]
  split
  · rfl
  · have hne : stopsRef ≠ (m.alloc (m.read stopsRef)).2 := by
      show stopsRef ≠ m.size
      omega
    rw [optLoopRef_read_ne stopsRef _ start _ _ [] rfl hne]
    show ((m.alloc (m.read stopsRef)).1).read stopsRef = m.read stopsRef
    simp [Mem.alloc, Mem.read]
    rw [Function.update_noteq (by omega : stopsRef ≠ m.size)]

/-- Witness for C10: running the reference-level optimizer on a concrete
one-array heap leaves the caller's array untouched. -/
theorem C10_input_array_unchanged_witness :
    (0 < (Mem.mk 1 (fun _ => [stopAnnotated])).size) ∧
    ((optimizeRouteRef ⟨0, 0⟩ (Mem.mk 1 (fun _ => [stopAnnotated])) 0).1).read 0 =
      (Mem.mk 1 (fun _ => [stopAnnotated])).read 0 :=
  ⟨by decide, C10_input_array_unchanged ⟨0, 0⟩ (Mem.mk 1 (fun _ => [stopAnnotated])) 0
    (by decide)⟩

/-! Evaluation lemmas for concrete routes. -/

theorem calculateDistance_lat (x y u : ℝ) :
    calculateDistance ⟨x, u⟩ ⟨y, u⟩ = |x - y| := by
  unfold calculateDistance
  have h : (u - u) * (u - u) + (x - y) * (x - y) = (x - y) ^ 2 := by ring
  simp only
  rw [h, Real.sqrt_sq_eq_abs]

theorem calculateDistance_lng (u x y : ℝ) :
    calculateDistance ⟨u, x⟩ ⟨u, y⟩ = |x - y| := by
  unfold calculateDistance
  have h : (x - y) * (x - y) + (u - u) * (u - u) = (x - y) ^ 2 := by ring
  simp only
  rw [h, Real.sqrt_sq_eq_abs]

theorem optimizeLoop_singleton (pos : Coordinate) (s : DeliveryStop) :
    optimizeLoop pos [s] = [s] := by
  rw [optimizeLoop]
  simp [nearestIndex, scanLoop, optimizeLoop]

theorem nearestIndex_two (pos : Coordinate) (s0 s1 : DeliveryStop) :
    nearestIndex pos [s0, s1] =
      if calculateDistance pos s1.coords * priorityWeight s1.priority <
          calculateDistance pos s0.coords then 1 else 0 := by
  simp only [nearestIndex, scanLoop]
  split <;> rfl

theorem nearestIndex_three (pos : Coordinate) (s0 s1 s2 : DeliveryStop) :
    nearestIndex pos [s0, s1, s2] =
      if calculateDistance pos s1.coords * priorityWeight s1.priority <
          calculateDistance pos s0.coords then
        (if calculateDistance pos s2.coords * priorityWeight s2.priority <
            calculateDistance pos s1.coords * priorityWeight s1.priority then 2 else 1)
      else
        (if calculateDistance pos s2.coords * priorityWeight s2.priority <
            calculateDistance pos s0.coords then 2 else 0) := by
  simp only [nearestIndex, scanLoop]
  split
  · split <;> rfl
  · split <;> rfl

/-- A high-priority stop on the latitude axis at distance 1 from the origin. -/
noncomputable def stopHighNear : DeliveryStop :=
  ⟨"a", "addr a", "Alice", Priority.high, ⟨1, 0⟩, none, none⟩

/-- A low-priority stop on the latitude axis at distance 0.9 from the origin. -/
noncomputable def stopLowCloser : DeliveryStop :=
  ⟨"b", "addr b", "Bob", Priority.low, ⟨0.9, 0⟩, none, none⟩

/-- Counterexample to C1 as stated: with the pool `[stopHighNear,
stopLowCloser]` seen from the origin, the weighted distance of the FIRST pool
element (0.7 * 1 = 0.7) is strictly below the weighted distance of the second
(1.0 * 0.9 = 0.9), yet the loop selects index 1 — because the first element
is scored by its unweighted distance 1, not by its weighted distance. -/
theorem C1_counterexample :
    calculateDistance ⟨0, 0⟩ stopHighNear.coords * priorityWeight stopHighNear.priority <
      calculateDistance ⟨0, 0⟩ stopLowCloser.coords * priorityWeight stopLowCloser.priority ∧
    nearestIndex ⟨0, 0⟩ [stopHighNear, stopLowCloser] = 1 ∧
    optimizeRoute ⟨0, 0⟩ [stopHighNear, stopLowCloser] = [stopLowCloser, stopHighNear] := by
  have hA : calculateDistance ⟨0, 0⟩ stopHighNear.coords = 1 := by
    show calculateDistance ⟨0, 0⟩ ⟨1, 0⟩ = 1
    rw [calculateDistance_lat]
    norm_num
  have hB : calculateDistance ⟨0, 0⟩ stopLowCloser.coords = 0.9 := by
    show calculateDistance ⟨0, 0⟩ ⟨0.9, 0⟩ = 0.9
    rw [calculateDistance_lat]
    norm_num
  have hwA : priorityWeight stopHighNear.priority = 0.7 := rfl
  have hwB : priorityWeight stopLowCloser.priority = 1.0 := rfl
  have hni : nearestIndex ⟨0, 0⟩ [stopHighNear, stopLowCloser] = 1 := by
    rw [nearestIndex_two, hA, hB, hwB, if_pos (by norm_num)]
  refine ⟨by rw [hA, hB, hwA, hwB]; norm_num, hni, ?_⟩
  rw [optimizeRoute, if_neg (by simp), optimizeLoop, hni]
  simp only [List.getD_cons_succ, List.getD_cons_zero, List.eraseIdx_cons_succ,
    List.eraseIdx_cons_zero]
  rw [optimizeLoop_singleton]

/-! Case analysis of permutations of two- and three-element lists. -/

theorem perm_pair_cases {α : Type} {x y b c : α} (h : [x, y].Perm [b, c]) :
    (x = b ∧ y = c) ∨ (x = c ∧ y = b) := by
  have hx : x ∈ [b, c] := h.subset (by simp)
  rcases (by simpa using hx : x = b ∨ x = c) with rfl | rfl
  · left
    refine ⟨rfl, ?_⟩
    have h2 : [y].Perm [c] := h.cons_inv
    simpa using List.perm_singleton.mp h2
  · right
    refine ⟨rfl, ?_⟩
    have h2 : [y].Perm [b] := (h.trans (List.Perm.swap x b [])).cons_inv
    simpa using List.perm_singleton.mp h2

theorem perm_triple_cases {α : Type} {a b c : α} {l : List α} (h : l.Perm [a, b, c]) :
    l = [a, b, c] ∨ l = [a, c, b] ∨ l = [b, a, c] ∨ l = [b, c, a] ∨
      l = [c, a, b] ∨ l = [c, b, a] := by
  have hlen : l.length = 3 := by simpa using h.length_eq
  match l, hlen with
  | [x, y, z], _ =>
    have hx : x ∈ [a, b, c] := h.subset (by simp)
    rcases (by simpa using hx : x = a ∨ x = b ∨ x = c) with rfl | rfl | rfl
    · rcases perm_pair_cases h.cons_inv with ⟨rfl, rfl⟩ | ⟨rfl, rfl⟩
      · exact Or.inl rfl
      · exact Or.inr (Or.inl rfl)
    · have h2 : [y, z].Perm [a, c] := (h.trans (List.Perm.swap a x [c]).symm).cons_inv
      rcases perm_pair_cases h2 with ⟨rfl, rfl⟩ | ⟨rfl, rfl⟩
      · exact Or.inr (Or.inr (Or.inl rfl))
      · exact Or.inr (Or.inr (Or.inr (Or.inl rfl)))
    · have hstep : ([a, b, x] : List α).Perm [x, a, b] :=
        ((List.Perm.swap x b []).cons a).trans (List.Perm.swap x a [b])
      have h2 : [y, z].Perm [a, b] := (h.trans hstep).cons_inv
      rcases perm_pair_cases h2 with ⟨rfl, rfl⟩ | ⟨rfl, rfl⟩
      · exact Or.inr (Or.inr (Or.inr (Or.inr (Or.inl rfl))))
      · exact Or.inr (Or.inr (Or.inr (Or.inr (Or.inr rfl))))

/-- Step lemma for the amended C9: from a position on the positive latitude
axis at `p`, a pool of two further low-priority stops on the axis at `x < y`
(with `p ≤ x`) is visited in axis order whichever way round it is listed. -/
theorem optimizeLoop_ray_pair (p x y : ℝ) (hpx : p ≤ x) (hxy : x < y)
    (sx sy : DeliveryStop) (hx : sx.coords = ⟨x, 0⟩) (hy : sy.coords = ⟨y, 0⟩)
    (hpriox : sx.priority = Priority.low) (hprioy : sy.priority = Priority.low) :
    optimizeLoop ⟨p, 0⟩ [sx, sy] = [sx, sy] ∧
      optimizeLoop ⟨p, 0⟩ [sy, sx] = [sx, sy] := by
  have dx : calculateDistance ⟨p, 0⟩ sx.coords = x - p := by
    rw [hx, calculateDistance_lat, abs_sub_comm, abs_of_nonneg (by linarith)]
  have dy : calculateDistance ⟨p, 0⟩ sy.coords = y - p := by
    rw [hy, calculateDistance_lat, abs_sub_comm, abs_of_nonneg (by linarith)]
  have pw : priorityWeight Priority.low = 1 := by norm_num [priorityWeight]
  constructor
  · have hni : nearestIndex ⟨p, 0⟩ [sx, sy] = 0 := by
      rw [nearestIndex_two, dx, dy, hprioy, pw, if_neg (by simp; linarith)]
    rw [optimizeLoop, hni]
    simp only [List.getD_cons_zero, List.eraseIdx_cons_zero]
    rw [hx, optimizeLoop_singleton]
  · have hni : nearestIndex ⟨p, 0⟩ [sy, sx] = 1 := by
      rw [nearestIndex_two, dx, dy, hpriox, pw, if_pos (by simp; linarith)]
    rw [optimizeLoop, hni]
    simp only [List.getD_cons_succ, List.getD_cons_zero, List.eraseIdx_cons_succ,
      List.eraseIdx_cons_zero]
    rw [hx, optimizeLoop_singleton]

/-- C9 (amended): for three stops of equal LOW priority lying with the depot
on a common ray (here: the positive latitude axis from the origin) at strictly
increasing distances, `optimizeRoute` outputs them in increasing-distance
order regardless of the order they appear in the input list.  (The original
claim fails both for high/medium priority — the unweighted scoring of the
pool's first element can make a farther stop win — and for general planar
positions, where the greedy nearest-neighbour step need not follow
origin-distance order; see the counterexample.) -/
theorem C9_ray_low_priority_in_distance_order (a b c : ℝ)
    (ha : 0 < a) (hab : a < b) (hbc : b < c) (sa sb sc : DeliveryStop)
    (hca : sa.coords = ⟨a, 0⟩) (hcb : sb.coords = ⟨b, 0⟩) (hcc : sc.coords = ⟨c, 0⟩)
    (hpa : sa.priority = Priority.low) (hpb : sb.priority = Priority.low)
    (hpc : sc.priority = Priority.low)
    (l : List DeliveryStop) (hl : l.Perm [sa, sb, sc]) :
    optimizeRoute ⟨0, 0⟩ l = [sa, sb, sc] := by
  have da : calculateDistance ⟨0, 0⟩ sa.coords = a := by
    rw [hca, calculateDistance_lat, abs_sub_comm, abs_of_nonneg (by linarith)]
    ring
  have db : calculateDistance ⟨0, 0⟩ sb.coords = b := by
    rw [hcb, calculateDistance_lat, abs_sub_comm, abs_of_nonneg (by linarith)]
    ring
  have dc : calculateDistance ⟨0, 0⟩ sc.coords = c := by
    rw [hcc, calculateDistance_lat, abs_sub_comm, abs_of_nonneg (by linarith)]
    ring
  have pw : priorityWeight Priority.low = 1 := by norm_num [priorityWeight]
  obtain ⟨hp1, hp2⟩ := optimizeLoop_ray_pair a b c hab.le hbc sb sc hcb hcc hpb hpc
  rcases perm_triple_cases hl with rfl | rfl | rfl | rfl | rfl | rfl
  · have hni : nearestIndex ⟨0, 0⟩ [sa, sb, sc] = 0 := by
      rw [nearestIndex_three, da, db, dc, hpb, hpc, pw,
        if_neg (by simp; linarith), if_neg (by simp; linarith)]
    rw [optimizeRoute, if_neg (by simp), optimizeLoop, hni]
    simp only [List.getD_cons_zero, List.eraseIdx_cons_zero]
    rw [hca, hp1]
  · have hni : nearestIndex ⟨0, 0⟩ [sa, sc, sb] = 0 := by
      rw [nearestIndex_three, da, db, dc, hpb, hpc, pw,
        if_neg (by simp; linarith), if_neg (by simp; linarith)]
    rw [optimizeRoute, if_neg (by simp), optimizeLoop, hni]
    simp only [List.getD_cons_zero, List.eraseIdx_cons_zero]
    rw [hca, hp2]
  · have hni : nearestIndex ⟨0, 0⟩ [sb, sa, sc] = 1 := by
      rw [nearestIndex_three, da, db, dc, hpa, hpc, pw,
        if_pos (by simp; linarith), if_neg (by simp; linarith)]
    rw [optimizeRoute, if_neg (by simp), optimizeLoop, hni]
    simp only [List.getD_cons_succ, List.getD_cons_zero, List.eraseIdx_cons_succ,
      List.eraseIdx_cons_zero]
    rw [hca, hp1]
  · have hni : nearestIndex ⟨0, 0⟩ [sb, sc, sa] = 2 := by
      rw [nearestIndex_three, da, db, dc, hpa, hpc, pw,
        if_neg (by simp; linarith), if_pos (by simp; linarith)]
    rw [optimizeRoute, if_neg (by simp), optimizeLoop, hni]
    simp only [List.getD_cons_succ, List.getD_cons_zero, List.eraseIdx_cons_succ,
      List.eraseIdx_cons_zero]
    rw [hca, hp1]
  · have hni : nearestIndex ⟨0, 0⟩ [sc, sa, sb] = 1 := by
      rw [nearestIndex_three, da, db, dc, hpa, hpb, pw,
        if_pos (by simp; linarith), if_neg (by simp; linarith)]
    rw [optimizeRoute, if_neg (by simp), optimizeLoop, hni]
    simp only [List.getD_cons_succ, List.getD_cons_zero, List.eraseIdx_cons_succ,
      List.eraseIdx_cons_zero]
    rw [hca, hp2]
  · have hni : nearestIndex ⟨0, 0⟩ [sc, sb, sa] = 2 := by
      rw [nearestIndex_three, da, db, dc, hpa, hpb, pw,
        if_pos (by simp; linarith), if_pos (by simp; linarith)]
    rw [optimizeRoute, if_neg (by simp), optimizeLoop, hni]
    simp only [List.getD_cons_succ, List.getD_cons_zero, List.eraseIdx_cons_succ,
      List.eraseIdx_cons_zero]
    rw [hca, hp2]

/-- Low-priority stops on the latitude axis at distances 1, 2, 3. -/
noncomputable def stopRay1 : DeliveryStop :=
  ⟨"r1", "addr r1", "Rita", Priority.low, ⟨1, 0⟩, none, none⟩

/-- Second stop of the concrete ray instance. -/
noncomputable def stopRay2 : DeliveryStop :=
  ⟨"r2", "addr r2", "Sam", Priority.low, ⟨2, 0⟩, none, none⟩

/-- Third stop of the concrete ray instance. -/
noncomputable def stopRay3 : DeliveryStop :=
  ⟨"r3", "addr r3", "Tom", Priority.low, ⟨3, 0⟩, none, none⟩

/-- Witness for C9 (amended): three concrete low-priority stops on the axis at
distances 1 < 2 < 3, fed in scrambled order, come out in distance order. -/
theorem C9_ray_low_priority_in_distance_order_witness :
    ((0 : ℝ) < 1 ∧ (1 : ℝ) < 2 ∧ (2 : ℝ) < 3 ∧
     stopRay1.coords = ⟨1, 0⟩ ∧ stopRay2.coords = ⟨2, 0⟩ ∧ stopRay3.coords = ⟨3, 0⟩ ∧
     stopRay1.priority = Priority.low ∧ stopRay2.priority = Priority.low ∧
     stopRay3.priority = Priority.low ∧
     ([stopRay2, stopRay1, stopRay3] : List DeliveryStop).Perm
       [stopRay1, stopRay2, stopRay3]) ∧
    optimizeRoute ⟨0, 0⟩ [stopRay2, stopRay1, stopRay3] =
      [stopRay1, stopRay2, stopRay3] :=
  ⟨⟨by norm_num, by norm_num, by norm_num, rfl, rfl, rfl, rfl, rfl, rfl,
      List.Perm.swap stopRay1 stopRay2 [stopRay3]⟩,
    C9_ray_low_priority_in_distance_order 1 2 3 (by norm_num) (by norm_num) (by norm_num)
      stopRay1 stopRay2 stopRay3 rfl rfl rfl rfl rfl rfl
      [stopRay2, stopRay1, stopRay3] (List.Perm.swap stopRay1 stopRay2 [stopRay3])⟩

/-- A high-priority stop on the axis at distance 1.2 from the origin. -/
noncomputable def stopHighMid : DeliveryStop :=
  ⟨"b2", "addr b2", "Bea", Priority.high, ⟨1.2, 0⟩, none, none⟩

/-- A high-priority stop on the axis at distance 3 from the origin. -/
noncomputable def stopHighFar : DeliveryStop :=
  ⟨"c2", "addr c2", "Cal", Priority.high, ⟨3, 0⟩, none, none⟩

/-- Low-priority planar stop at distance 1 from the origin. -/
noncomputable def stopPlanar1 : DeliveryStop :=
  ⟨"p1", "addr p1", "Pia", Priority.low, ⟨1, 0⟩, none, none⟩

/-- Low-priority planar stop at distance 2 from the origin (off the axis). -/
noncomputable def stopPlanar2 : DeliveryStop :=
  ⟨"p2", "addr p2", "Quin", Priority.low, ⟨0, 2⟩, none, none⟩

/-- Low-priority planar stop at distance 3.1 from the origin. -/
noncomputable def stopPlanar3 : DeliveryStop :=
  ⟨"p3", "addr p3", "Rae", Priority.low, ⟨3.1, 0⟩, none, none⟩

/-- Counterexample to C9 as stated, in both directions the universal claim
can fail: (1) three equal-HIGH-priority stops at distances 1 < 1.2 < 3 on a
common axis come out as [mid, near, far] — the unweighted scoring of the
pool's first element lets the farther stop win the first round; and (2) three
equal-LOW-priority stops at distances 1 < 2 < 3.1 in the plane come out as
[near, farthest, middle] — greedy nearest-neighbour from the moving position
does not follow origin-distance order. -/
theorem C9_counterexample :
    (calculateDistance ⟨0, 0⟩ stopHighNear.coords <
       calculateDistance ⟨0, 0⟩ stopHighMid.coords ∧
     calculateDistance ⟨0, 0⟩ stopHighMid.coords <
       calculateDistance ⟨0, 0⟩ stopHighFar.coords ∧
     stopHighNear.priority = stopHighMid.priority ∧
     stopHighMid.priority = stopHighFar.priority ∧
     optimizeRoute ⟨0, 0⟩ [stopHighNear, stopHighMid, stopHighFar] =
       [stopHighMid, stopHighNear, stopHighFar] ∧
     [stopHighMid, stopHighNear, stopHighFar] ≠
       [stopHighNear, stopHighMid, stopHighFar]) ∧
    (calculateDistance ⟨0, 0⟩ stopPlanar1.coords <
       calculateDistance ⟨0, 0⟩ stopPlanar2.coords ∧
     calculateDistance ⟨0, 0⟩ stopPlanar2.coords <
       calculateDistance ⟨0, 0⟩ stopPlanar3.coords ∧
     stopPlanar1.priority = stopPlanar2.priority ∧
     stopPlanar2.priority = stopPlanar3.priority ∧
     optimizeRoute ⟨0, 0⟩ [stopPlanar1, stopPlanar2, stopPlanar3] =
       [stopPlanar1, stopPlanar3, stopPlanar2] ∧
     [stopPlanar1, stopPlanar3, stopPlanar2] ≠
       [stopPlanar1, stopPlanar2, stopPlanar3]) := by
  have e1 : calculateDistance ⟨0, 0⟩ stopHighNear.coords = 1 := by
    show calculateDistance ⟨0, 0⟩ ⟨1, 0⟩ = 1
    rw [calculateDistance_lat]; norm_num
  have e2 : calculateDistance ⟨0, 0⟩ stopHighMid.coords = 1.2 := by
    show calculateDistance ⟨0, 0⟩ ⟨1.2, 0⟩ = 1.2
    rw [calculateDistance_lat]; norm_num
  have e3 : calculateDistance ⟨0, 0⟩ stopHighFar.coords = 3 := by
    show calculateDistance ⟨0, 0⟩ ⟨3, 0⟩ = 3
    rw [calculateDistance_lat]; norm_num
  have w2 : priorityWeight stopHighMid.priority = 0.7 := rfl
  have w3 : priorityWeight stopHighFar.priority = 0.7 := rfl
  have hni1 : nearestIndex ⟨0, 0⟩ [stopHighNear, stopHighMid, stopHighFar] = 1 := by
    rw [nearestIndex_three, e1, e2, e3, w2, w3, if_pos (by norm_num), if_neg (by norm_num)]
  have f1 : calculateDistance ⟨1.2, 0⟩ stopHighNear.coords = 0.2 := by
    show calculateDistance ⟨1.2, 0⟩ ⟨1, 0⟩ = 0.2
    rw [calculateDistance_lat]; norm_num
  have f2 : calculateDistance ⟨1.2, 0⟩ stopHighFar.coords = 1.8 := by
    show calculateDistance ⟨1.2, 0⟩ ⟨3, 0⟩ = 1.8
    rw [calculateDistance_lat]; norm_num
  have hni2 : nearestIndex ⟨1.2, 0⟩ [stopHighNear, stopHighFar] = 0 := by
    rw [nearestIndex_two, f1, f2, w3, if_neg (by norm_num)]
  have run1 : optimizeRoute ⟨0, 0⟩ [stopHighNear, stopHighMid, stopHighFar] =
      [stopHighMid, stopHighNear, stopHighFar] := by
    rw [optimizeRoute, if_neg (by simp), optimizeLoop, hni1]
    simp only [List.getD_cons_succ, List.getD_cons_zero, List.eraseIdx_cons_succ,
      List.eraseIdx_cons_zero]
    rw [show stopHighMid.coords = (⟨1.2, 0⟩ : Coordinate) from rfl, optimizeLoop, hni2]
    simp only [List.getD_cons_zero, List.eraseIdx_cons_zero]
    rw [optimizeLoop_singleton]
  have g1 : calculateDistance ⟨0, 0⟩ stopPlanar1.coords = 1 := by
    show calculateDistance ⟨0, 0⟩ ⟨1, 0⟩ = 1
    rw [calculateDistance_lat]; norm_num
  have g2 : calculateDistance ⟨0, 0⟩ stopPlanar2.coords = 2 := by
    show calculateDistance ⟨0, 0⟩ ⟨0, 2⟩ = 2
    rw [calculateDistance_lng]; norm_num
  have g3 : calculateDistance ⟨0, 0⟩ stopPlanar3.coords = 3.1 := by
    show calculateDistance ⟨0, 0⟩ ⟨3.1, 0⟩ = 3.1
    rw [calculateDistance_lat]; norm_num
  have v2 : priorityWeight stopPlanar2.priority = 1.0 := rfl
  have v3 : priorityWeight stopPlanar3.priority = 1.0 := rfl
  have hni3 : nearestIndex ⟨0, 0⟩ [stopPlanar1, stopPlanar2, stopPlanar3] = 0 := by
    rw [nearestIndex_three, g1, g2, g3, v2, v3, if_neg (by norm_num), if_neg (by norm_num)]
  have k2 : calculateDistance ⟨1, 0⟩ stopPlanar2.coords = Real.sqrt 5 := by
    show calculateDistance ⟨1, 0⟩ ⟨0, 2⟩ = Real.sqrt 5
    unfold calculateDistance
    norm_num
  have k3 : calculateDistance ⟨1, 0⟩ stopPlanar3.coords = 2.1 := by
    show calculateDistance ⟨1, 0⟩ ⟨3.1, 0⟩ = 2.1
    rw [calculateDistance_lat]; norm_num
  have hni4 : nearestIndex ⟨1, 0⟩ [stopPlanar2, stopPlanar3] = 1 := by
    rw [nearestIndex_two, k2, k3, v3]
    rw [if_pos ?cond]
    case cond =>
      have hm : (2.1 : ℝ) * 1.0 = 2.1 := by norm_num
      rw [hm]
      exact (Real.lt_sqrt (by norm_num)).mpr (by norm_num)
  have run2 : optimizeRoute ⟨0, 0⟩ [stopPlanar1, stopPlanar2, stopPlanar3] =
      [stopPlanar1, stopPlanar3, stopPlanar2] := by
    rw [optimizeRoute, if_neg (by simp), optimizeLoop, hni3]
    simp only [List.getD_cons_zero, List.eraseIdx_cons_zero]
    rw [show stopPlanar1.coords = (⟨1, 0⟩ : Coordinate) from rfl, optimizeLoop, hni4]
    simp only [List.getD_cons_succ, List.getD_cons_zero, List.eraseIdx_cons_succ,
      List.eraseIdx_cons_zero]
    rw [optimizeLoop_singleton]
  refine ⟨⟨by rw [e1, e2]; norm_num, by rw [e2, e3]; norm_num, rfl, rfl, run1, ?_⟩,
    ⟨by rw [g1, g2]; norm_num, by rw [g2, g3]; norm_num, rfl, rfl, run2, ?_⟩⟩
  · simp [stopHighNear, stopHighMid]
  · simp [stopPlanar2, stopPlanar3]
